import Mathlib

/-!
Verification development for the PocketPsychology self-help chatbot backend.

The Python backend (FastAPI + Celery + Redis + SQLite) is shallowly embedded:
Redis is an association list keyed by strings, the SQLite tables used by the
claims are explicit lists, and every external effect (Azure OpenAI completion
calls, Celery task dispatch, database writes) is threaded as an explicit
oracle / outcome parameter so each code path of the source is represented.
-/

set_option autoImplicit false

namespace Pocket

/-- Model of the Redis key-value store: an association list of
(key, ttl-in-seconds, value) entries.  A setex overwrites any previous entry
under the same key, mirroring Redis SETEX semantics. -/
abbrev Cache (α : Type) : Type := List (String × Nat × α)

/-- Redis SETEX: store a value under a key with a time-to-live. -/
def Cache.setex {α : Type} (c : Cache α) (k : String) (ttl : Nat) (v : α) : Cache α :=
  (k, ttl, v) :: c.filter (fun e => !(e.1 == k))

/-- Redis GET: return the value stored at the key, if any. -/
def Cache.get {α : Type} (c : Cache α) (k : String) : Option α :=
  match c.find? (fun e => e.1 == k) with
  | some e => some e.2.2
  | none => none

/-- The ttl stored at a key, if the key is present. -/
def Cache.ttlOf {α : Type} (c : Cache α) (k : String) : Option Nat :=
  match c.find? (fun e => e.1 == k) with
  | some e => some e.2.1
  | none => none

/-! ## In-memory conversation history (ai_service.py, AIService) -/

/-- One entry of a conversation history list: a role/content pair, as appended
by AIService._add_to_history. -/
structure HistMsg where
  role : String
  content : String
deriving DecidableEq, Repr

/-- AIService.conversation_history: a dict from conversation key to message
list, modelled as an association list. -/
abbrev History : Type := List (String × List HistMsg)

/-- AIService._get_conversation_key. -/
def conversationKey (modeVal : String) : String := "conversation_" ++ modeVal

/-- AIService._add_to_history: append the message under the mode key and keep
only the last 20 messages. -/
def addToHistory (h : History) (modeVal role content : String) : History :=
  let key := conversationKey modeVal
  let cur := (h.lookup key).getD []
  let appended := cur ++ [⟨role, content⟩]
  let trimmed := if 20 < appended.length then appended.drop (appended.length - 20) else appended
  (key, trimmed) :: h.filter (fun e => !(e.1 == key))

/-- AIService.clear_conversation_history: delete one mode key, or clear the
whole dict when no mode is given. -/
def clearConversationHistory (h : History) (mode : Option String) : History :=
  match mode with
  | some m => h.filter (fun e => !(e.1 == conversationKey m))
  | none => []

/-- A history-mutating operation of AIService. -/
inductive HistOp where
  | add (modeVal role content : String)
  | clear (mode : Option String)

/-- Apply one history operation. -/
def applyHistOp (h : History) : HistOp → History
  | .add m r c => addToHistory h m r c
  | .clear m => clearConversationHistory h m

/-- Run a sequence of history operations from the initial empty dict. -/
def runHistOps (ops : List HistOp) : History := (ops.foldl applyHistOp [])

theorem trimmed_length_le (l : List HistMsg) :
    (if 20 < l.length then l.drop (l.length - 20) else l).length ≤ 20 := by
  by_cases h : 20 < l.length
  · simp only [if_pos h, List.length_drop]
    omega
  · simp only [if_neg h]
    omega

theorem applyHistOp_bounded (h : History) (op : HistOp)
    (ih : ∀ e ∈ h, (e.2 : List HistMsg).length ≤ 20) :
    ∀ e ∈ applyHistOp h op, e.2.length ≤ 20 := by
  intro e he
  cases op with
  | add m r c =>
    simp only [applyHistOp, addToHistory, List.mem_cons] at he
    rcases he with rfl | he
    · exact trimmed_length_le _
    · exact ih e (List.mem_of_mem_filter he)
  | clear m =>
    cases m with
    | some s =>
      simp only [applyHistOp, clearConversationHistory] at he
      exact ih e (List.mem_of_mem_filter he)
    | none =>
      simp only [applyHistOp, clearConversationHistory] at he
      exact absurd he (List.not_mem_nil e)

theorem foldl_histOps_bounded (ops : List HistOp) (h : History)
    (ih : ∀ e ∈ h, (e.2 : List HistMsg).length ≤ 20) :
    ∀ e ∈ ops.foldl applyHistOp h, e.2.length ≤ 20 := by
  induction ops generalizing h with
  | nil => simpa using ih
  | cons op rest ihrest =>
    simp only [List.foldl_cons]
    exact ihrest (applyHistOp h op) (applyHistOp_bounded h op ih)

/-- C9: after any sequence of _add_to_history and clear_conversation_history
operations starting from the empty history, every per-mode conversation list
kept by AIService contains at most 20 messages. -/
theorem history_invariant_le_20 (ops : List HistOp) :
    ∀ e ∈ runHistOps ops, e.2.length ≤ 20 := by
  intro e he
  exact foldl_histOps_bounded ops [] (by intro e h; cases h) e he

/-- Witness for C9 at a concrete operation sequence and entry. -/
theorem history_invariant_le_20_witness :
    (("conversation_support", [HistMsg.mk "user" "hi"]) ∈
        runHistOps [HistOp.add "support" "user" "hi"]) ∧
      ([HistMsg.mk "user" "hi"] : List HistMsg).length ≤ 20 :=
  ⟨by decide, history_invariant_le_20 [HistOp.add "support" "user" "hi"]
    ("conversation_support", [HistMsg.mk "user" "hi"]) (by decide)⟩

/-! ## Python string primitives, over lists of characters

A Python str is modelled as a List Char of its code points. -/

/-- Python lstrip with a character predicate. -/
def lstripP (p : Char → Bool) (s : List Char) : List Char := s.dropWhile p

/-- Python rstrip with a character predicate. -/
def rstripP (p : Char → Bool) (s : List Char) : List Char := (s.reverse.dropWhile p).reverse

/-- Python strip with a character predicate: drop matching characters from
both ends. -/
def stripP (p : Char → Bool) (s : List Char) : List Char := rstripP p (lstripP p s)

/-- Python str.strip() with no argument: strip whitespace. -/
def stripWs (s : List Char) : List Char := stripP (fun c => c.isWhitespace) s

/-- The double-quote character. -/
def dquote : Char := Char.ofNat 34

/-- The single-quote character. -/
def squote : Char := Char.ofNat 39

/-- Python str.lower() on one character, for the alphabets this codebase
uses: ASCII A-Z and Cyrillic А-Я / Ё. -/
def pyLowerChar (c : Char) : Char :=
  if 65 ≤ c.toNat ∧ c.toNat ≤ 90 then Char.ofNat (c.toNat + 32)
  else if 1040 ≤ c.toNat ∧ c.toNat ≤ 1071 then Char.ofNat (c.toNat + 32)
  else if c.toNat = 1025 then Char.ofNat 1105
  else c

/-- Helper for Python str.replace(pat, ""): fuelled so that it is structural
(the fuel s.length is always sufficient, since every step consumes at least
one character of the remaining input). -/
def eraseAllAux (pat : List Char) : Nat → List Char → List Char
  | _, [] => []
  | 0, s => s
  | fuel+1, c :: rest =>
    if !pat.isEmpty && pat.isPrefixOf (c :: rest) then
      eraseAllAux pat fuel (List.drop pat.length (c :: rest))
    else
      c :: eraseAllAux pat fuel rest

/-- Python s.replace(pat, ""): remove every (leftmost, non-overlapping)
occurrence of pat from s. -/
def eraseAll (pat s : List Char) : List Char := eraseAllAux pat s.length s

/-- The suffix of s just after the first occurrence of pat, when pat occurs
in s; none encodes Python (pat in s) being False. -/
def splitTail (pat : List Char) : List Char → Option (List Char)
  | [] => none
  | c :: rest =>
    if pat.isPrefixOf (c :: rest) then some (List.drop pat.length (c :: rest))
    else splitTail pat rest

/-- The characters of s before the first occurrence of pat (all of s when pat
does not occur).  Applied to the suffix after the first occurrence, this is
Python s.split(pat)[1]. -/
def takeUntilPat (pat : List Char) : List Char → List Char
  | [] => []
  | c :: rest =>
    if pat.isPrefixOf (c :: rest) then []
    else c :: takeUntilPat pat rest

theorem lstripP_length_le (p : Char → Bool) (s : List Char) :
    (lstripP p s).length ≤ s.length := by
  simpa [lstripP] using (List.dropWhile_sublist (l := s) (p := p)).length_le

theorem rstripP_length_le (p : Char → Bool) (s : List Char) :
    (rstripP p s).length ≤ s.length := by
  have h := (List.dropWhile_sublist (l := s.reverse) (p := p)).length_le
  simpa [rstripP] using h

theorem stripP_length_le (p : Char → Bool) (s : List Char) :
    (stripP p s).length ≤ s.length :=
  le_trans (rstripP_length_le p _) (lstripP_length_le p s)

theorem stripWs_length_le (s : List Char) : (stripWs s).length ≤ s.length :=
  stripP_length_le _ s

theorem eraseAllAux_length_le (pat : List Char) (fuel : Nat) (s : List Char) :
    (eraseAllAux pat fuel s).length ≤ s.length := by
  induction fuel generalizing s with
  | zero => cases s <;> simp [eraseAllAux]
  | succ n ih =>
    cases s with
    | nil => simp [eraseAllAux]
    | cons c rest =>
      by_cases h : (!pat.isEmpty && pat.isPrefixOf (c :: rest)) = true
      · have h1 := ih (List.drop pat.length (c :: rest))
        have h2 : (List.drop pat.length (c :: rest)).length ≤ (c :: rest).length := by
          simp [List.length_drop]
        simp only [eraseAllAux, if_pos h]
        exact le_trans h1 h2
      · have h1 := ih rest
        simp only [eraseAllAux, if_neg h, List.length_cons]
        omega

theorem eraseAll_length_le (pat s : List Char) : (eraseAll pat s).length ≤ s.length :=
  eraseAllAux_length_le pat s.length s

/-! ## Topic extraction pipeline (tasks.py, extract_topic_from_message) -/

/-- The separator the task looks for in the LLM output, by language. -/
def topicPattern (language : String) : List Char :=
  if language == "en" then "TOPIC:".data else "ТЕМА:".data

/-- The hard-coded default topic substituted for empty or junk output. -/
def defaultTopic (language : String) : List Char :=
  if language == "ru" then "общение".data else "communication".data

/-- The junk tokens that are replaced by the default topic. -/
def junkTopics : List (List Char) :=
  ["none".data, "нет".data, "неизвестно".data, "unknown".data,
   "тема:".data, "topic:".data, "n/a".data, "н/д".data]

/-- Python: topic = ai_response; if sep in ai_response, topic =
ai_response.split(sep)[1].strip(). -/
def extractTopicRaw (language : String) (aiResponse : List Char) : List Char :=
  match splitTail (topicPattern language) aiResponse with
  | some tail => stripWs (takeUntilPat (topicPattern language) tail)
  | none => aiResponse

/-- Python: topic.strip().strip(double-quote).strip(single-quote).strip(). -/
def stripQuotesEtc (t : List Char) : List Char :=
  stripWs (stripP (fun c => c == squote) (stripP (fun c => c == dquote) (stripWs t)))

/-- Python: strip quotes, then truncate to 30 characters and re-strip when
longer than 30. -/
def truncatedTopic (t0 : List Char) : List Char :=
  if 30 < (stripQuotesEtc t0).length then stripWs ((stripQuotesEtc t0).take 30)
  else stripQuotesEtc t0

/-- Python: not topic or topic.lower() in [junk tokens]. -/
def isJunkOrEmpty (t : List Char) : Bool :=
  t.isEmpty || junkTopics.contains (t.map pyLowerChar)

/-- The junk-token replacement step. -/
def afterJunkCheck (language : String) (t : List Char) : List Char :=
  if isJunkOrEmpty t then defaultTopic language else t

/-- Python: topic.replace(ru-sep, "").replace(en-sep, "").strip(), then the
default topic if the result is empty. -/
def finalCleanup (language : String) (t : List Char) : List Char :=
  if (stripWs (eraseAll "TOPIC:".data (eraseAll "ТЕМА:".data t))).isEmpty then
    defaultTopic language
  else
    stripWs (eraseAll "TOPIC:".data (eraseAll "ТЕМА:".data t))

/-- The whole cleanup applied to the raw split result. -/
def cleanTopic (language : String) (t0 : List Char) : List Char :=
  finalCleanup language (afterJunkCheck language (truncatedTopic t0))

/-- The topic string computed by extract_topic_from_message from the raw LLM
completion content (which the code first strips). -/
def extract_topic (language : String) (aiRespRaw : List Char) : List Char :=
  cleanTopic language (extractTopicRaw language (stripWs aiRespRaw))

theorem defaultTopic_ne_nil (language : String) : defaultTopic language ≠ [] := by
  unfold defaultTopic
  split <;> decide

theorem defaultTopic_length_le (language : String) : (defaultTopic language).length ≤ 13 := by
  unfold defaultTopic
  split <;> decide

theorem finalCleanup_ne_nil (language : String) (t : List Char) :
    finalCleanup language t ≠ [] := by
  unfold finalCleanup
  split
  · exact defaultTopic_ne_nil language
  · intro hnil
    simp [hnil] at *

theorem finalCleanup_length_le (language : String) (t : List Char) (ht : t.length ≤ 30) :
    (finalCleanup language t).length ≤ 30 := by
  unfold finalCleanup
  split
  · exact le_trans (defaultTopic_length_le language) (by omega)
  · calc (stripWs (eraseAll "TOPIC:".data (eraseAll "ТЕМА:".data t))).length
        ≤ (eraseAll "TOPIC:".data (eraseAll "ТЕМА:".data t)).length := stripWs_length_le _
      _ ≤ (eraseAll "ТЕМА:".data t).length := eraseAll_length_le _ _
      _ ≤ t.length := eraseAll_length_le _ _
      _ ≤ 30 := ht

theorem truncatedTopic_length_le (t0 : List Char) : (truncatedTopic t0).length ≤ 30 := by
  unfold truncatedTopic
  split
  · calc (stripWs ((stripQuotesEtc t0).take 30)).length
        ≤ ((stripQuotesEtc t0).take 30).length := stripWs_length_le _
      _ ≤ 30 := by simp [List.length_take]
  · omega

theorem afterJunkCheck_length_le (language : String) (t : List Char) (ht : t.length ≤ 30) :
    (afterJunkCheck language t).length ≤ 30 := by
  unfold afterJunkCheck
  split
  · exact le_trans (defaultTopic_length_le language) (by omega)
  · exact ht

theorem finalCleanup_fixed (language : String) (t : List Char)
    (h1 : stripWs (eraseAll "TOPIC:".data (eraseAll "ТЕМА:".data t)) = t)
    (h2 : t.isEmpty = false) :
    finalCleanup language t = t := by
  unfold finalCleanup
  rw [h1, h2]
  simp

theorem finalCleanup_default (language : String) :
    finalCleanup language (defaultTopic language) = defaultTopic language := by
  by_cases h : (language == "ru") = true
  · have hd : defaultTopic language = "общение".data := by simp [defaultTopic, h]
    rw [hd]
    exact finalCleanup_fixed language _ (by decide) (by decide)
  · have hd : defaultTopic language = "communication".data := by
      simp only [defaultTopic]
      rw [if_neg h]
    rw [hd]
    exact finalCleanup_fixed language _ (by decide) (by decide)

/-- C5: the topic produced by extract_topic_from_message is a short non-empty
category string: non-empty, at most 30 characters after cleanup, and when the
cleaned-up topic is empty or one of the junk tokens it is the hard-coded
default ("общение" for Russian, "communication" otherwise). -/
theorem extract_topic_short_nonempty (language : String) (aiRespRaw : List Char) :
    extract_topic language aiRespRaw ≠ [] ∧
    (extract_topic language aiRespRaw).length ≤ 30 ∧
    (isJunkOrEmpty (truncatedTopic (extractTopicRaw language (stripWs aiRespRaw))) = true →
      extract_topic language aiRespRaw = defaultTopic language) := by
  unfold extract_topic cleanTopic
  refine ⟨finalCleanup_ne_nil _ _, ?_, ?_⟩
  · exact finalCleanup_length_le _ _
      (afterJunkCheck_length_le _ _ (truncatedTopic_length_le _))
  · intro hjunk
    unfold afterJunkCheck
    rw [hjunk]
    simp only [if_pos]
    exact finalCleanup_default language

/-- Witness for C5 at a concrete junk LLM output. -/
theorem extract_topic_short_nonempty_witness :
    isJunkOrEmpty (truncatedTopic (extractTopicRaw "ru" (stripWs "None".data))) = true ∧
    extract_topic "ru" "None".data = "общение".data := by
  refine ⟨by decide, ?_⟩
  have h := (extract_topic_short_nonempty "ru" "None".data).2.2 (by decide)
  simpa [defaultTopic] using h

/-! ## Cached user topic (tasks.py, get_cached_topic) -/

/-- Final fallback of get_cached_topic: cache and return the hard-coded
default topic. -/
def topicFinalFallback (key : String) (cache : Cache String) :
    Option String × Cache String :=
  (some "общение", cache.setex key 300 "общение")

/-- Database fallback of get_cached_topic: when the db global is available
and holds a truthy topic for the user, cache it for 300 seconds and return
it; otherwise take the final fallback. -/
def topicDbFallback (user key : String) (cache : Cache String) (dbOk : Bool)
    (userTopics : List (String × String)) : Option String × Cache String :=
  match (if dbOk then userTopics.lookup user else none) with
  | some t =>
      if t == "" then topicFinalFallback key cache
      else (some t, cache.setex key 300 t)
  | none => topicFinalFallback key cache

/-- tasks.get_cached_topic: read the user_topic cache; on a truthy hit return
it, otherwise fall back to the database topic, and finally to the hard-coded
default.  The Python annotation is Optional[str], so the model returns an
Option String with every return site wrapped in some.  dbOk models the db
global being non-None; userTopics models the user_topics table. -/
def get_cached_topic (user : String) (cache : Cache String) (dbOk : Bool)
    (userTopics : List (String × String)) : Option String × Cache String :=
  match cache.get ("user_topic:" ++ user) with
  | some t =>
      if t == "" then topicDbFallback user ("user_topic:" ++ user) cache dbOk userTopics
      else (some t, cache)
  | none => topicDbFallback user ("user_topic:" ++ user) cache dbOk userTopics

theorem topicDbFallback_isSome (user key : String) (cache : Cache String) (dbOk : Bool)
    (userTopics : List (String × String)) :
    (topicDbFallback user key cache dbOk userTopics).1.isSome = true := by
  unfold topicDbFallback topicFinalFallback
  split
  · split <;> simp
  · simp

/-- C6: get_cached_topic never returns None: on a cache miss it falls back to
the database topic (caching it for 300 seconds), and when that is absent it
returns the hard-coded default "общение", written to the cache with a
300-second (5-minute) TTL. -/
theorem get_cached_topic_never_none (user : String) (cache : Cache String) (dbOk : Bool)
    (userTopics : List (String × String)) :
    (get_cached_topic user cache dbOk userTopics).1.isSome = true ∧
    (∀ t : String, cache.get ("user_topic:" ++ user) = none →
      (if dbOk then userTopics.lookup user else none) = some t → t ≠ "" →
      get_cached_topic user cache dbOk userTopics =
        (some t, cache.setex ("user_topic:" ++ user) 300 t)) ∧
    (cache.get ("user_topic:" ++ user) = none →
      (if dbOk then userTopics.lookup user else none) = none →
      get_cached_topic user cache dbOk userTopics =
        (some "общение", cache.setex ("user_topic:" ++ user) 300 "общение")) := by
  refine ⟨?_, ?_, ?_⟩
  · unfold get_cached_topic
    split
    · split
      · exact topicDbFallback_isSome _ _ _ _ _
      · simp
    · exact topicDbFallback_isSome _ _ _ _ _
  · intro t hc hd ht
    unfold get_cached_topic
    rw [hc]
    unfold topicDbFallback
    rw [hd]
    simp [ht]
  · intro hc hd
    unfold get_cached_topic
    rw [hc]
    unfold topicDbFallback topicFinalFallback
    rw [hd]

/-- Witness for C6 at the empty cache and empty database. -/
theorem get_cached_topic_never_none_witness :
    Cache.get ([] : Cache String) ("user_topic:" ++ "u") = none ∧
    get_cached_topic "u" [] false [] =
      (some "общение", Cache.setex [] ("user_topic:" ++ "u") 300 "общение") :=
  ⟨rfl, (get_cached_topic_never_none "u" [] false []).2.2 rfl rfl⟩

/-! ## Recommendation cache
(tasks.py, update_user_recommendations / get_cached_recommendations) -/

/-- The recommendations dict cached by update_user_recommendations. -/
structure Recommendations where
  topic : String
  language : String
  videos : List String
  timestamp : String
deriving DecidableEq, Repr

/-- tasks.update_user_recommendations: with a truthy current topic for the
user in the database, cache the recommendations dict for 1800 seconds under
the key recommendations:user:language.  dbTopic models
db.get_user_current_topic(user_id), videos the YouTube search result and now
the timestamp; the dispatched article/quote subtasks are not part of this
claim and are omitted from the state. -/
def update_user_recommendations (user language : String) (dbTopic : Option String)
    (videos : List String) (now : String) (cache : Cache Recommendations) :
    Cache Recommendations × Option Recommendations :=
  match dbTopic with
  | none => (cache, none)
  | some t =>
      if t == "" then (cache, none)
      else
        (cache.setex ("recommendations:" ++ user ++ ":" ++ language) 1800
            ⟨t, language, videos, now⟩,
          some ⟨t, language, videos, now⟩)

/-- tasks.get_cached_recommendations: reads the key recommendations:user,
with no language suffix. -/
def get_cached_recommendations (user : String) (cache : Cache Recommendations) :
    Option Recommendations :=
  cache.get ("recommendations:" ++ user)

/-- C2: the claimed round-trip fails in the code: update_user_recommendations
stores the entry under recommendations:u1:ru, but get_cached_recommendations
reads recommendations:u1 and finds nothing, even though the entry is still
cached under the language-suffixed key. -/
theorem recommendations_roundtrip_fails :
    get_cached_recommendations "u1"
      (update_user_recommendations "u1" "ru" (some "стресс") [] "t0" []).1 = none ∧
    (update_user_recommendations "u1" "ru" (some "стресс") [] "t0" []).1.get
        ("recommendations:" ++ "u1" ++ ":" ++ "ru") =
      some ⟨"стресс", "ru", [], "t0"⟩ := by
  constructor
  · decide
  · decide

/-! ## Article generation (content_generator.py, _generate_multiple_articles) -/

/-- An article dict as produced by ContentGenerator.  fallback is true
exactly on articles produced by _create_fallback_article (the Python dict
carries the is_fallback key only there). -/
structure Article where
  title : String
  content : String
  topic : String
  frequency : Nat
  approach : String
  fallback : Bool
deriving DecidableEq, Repr

/-- The three approach names, in the order _generate_multiple_articles
iterates over them. -/
def approachNames : List String := ["practical", "theoretical", "motivational"]

/-- The title of the hard-coded fallback template for a topic and approach
(_create_fallback_article; an unknown approach name gets the practical
template). -/
def fallbackTitle (language topicName approachName : String) : String :=
  if language == "en" then
    if approachName == "theoretical" then
      "Understanding " ++ topicName ++ ": A Comprehensive Overview"
    else if approachName == "motivational" then
      "Finding Strength in " ++ topicName ++ ": Your Journey to Growth"
    else
      "Practical Guide to " ++ topicName ++ ": Simple Steps for Improvement"
  else
    if approachName == "theoretical" then
      "Понимание " ++ topicName ++ ": Комплексный обзор"
    else if approachName == "motivational" then
      "Найти силу в " ++ topicName ++ ": Ваш путь к росту"
    else
      "Практическое руководство по " ++ topicName ++ ": Простые шаги к улучшению"

/-- The content of the hard-coded fallback template for a topic and
approach. -/
def fallbackContent (language topicName approachName : String) : String :=
  if language == "en" then
    if approachName == "theoretical" then
      topicName ++ " is a complex psychological concept that affects many aspects of our lives. Understanding the underlying mechanisms and theories can help you better navigate challenges related to " ++ topicName ++ ". This knowledge provides a foundation for developing effective coping strategies and making informed decisions about your well-being."
    else if approachName == "motivational" then
      "Every challenge related to " ++ topicName ++ " is an opportunity for personal growth and development. You have the inner strength to overcome difficulties and emerge stronger. Remember that you are not alone in facing these challenges, and your experiences can inspire others. Stay committed to your journey of self-improvement and believe in your ability to create positive change."
    else
      "Dealing with " ++ topicName ++ " can be challenging, but there are practical steps you can take to improve your situation. Start by identifying the specific aspects of " ++ topicName ++ " that affect you most. Then, create a simple action plan with small, manageable steps. Remember that progress takes time, and every small improvement counts. Focus on what you can control and celebrate your achievements, no matter how small they may seem."
  else
    if approachName == "theoretical" then
      topicName ++ " - это сложная психологическая концепция, которая влияет на многие аспекты нашей жизни. Понимание основных механизмов и теорий может помочь вам лучше справляться с проблемами, связанными с " ++ topicName ++ ". Эти знания служат основой для разработки эффективных стратегий преодоления трудностей."
    else if approachName == "motivational" then
      "Каждый вызов, связанный с " ++ topicName ++ ", - это возможность для личностного роста и развития. У вас есть внутренняя сила, чтобы преодолевать трудности и становиться сильнее. Помните, что вы не одиноки в решении этих проблем, и ваш опыт может вдохновить других."
    else
      "Работа с " ++ topicName ++ " может быть сложной, но есть практические шаги, которые вы можете предпринять для улучшения ситуации. Начните с определения конкретных аспектов " ++ topicName ++ ", которые больше всего влияют на вас. Затем создайте простой план действий с небольшими, выполнимыми шагами. Помните, что прогресс требует времени, и каждое небольшое улучшение имеет значение."

/-- content_generator._create_fallback_article: the hard-coded template
article for a topic and approach. -/
def _create_fallback_article (language topicName : String) (freq : Nat)
    (approachName : String) : Article :=
  { title := fallbackTitle language topicName approachName,
    content := fallbackContent language topicName approachName,
    topic := topicName, frequency := freq, approach := approachName,
    fallback := true }

/-- Oracle for one attempt of _generate_article_with_approach, indexed by
approach name and attempt number: some (title, content) when the completion
call succeeded and both parsed fields are non-empty, none when the call
raised or the parse came back empty (both make the Python helper yield no
article). -/
abbrev ArticleGen : Type := String → Nat → Option (String × String)

/-- The article dict built by _generate_article_with_approach on success. -/
def articleOf (topicName : String) (freq : Nat) (approachName : String)
    (tc : String × String) : Article :=
  { title := tc.1, content := tc.2, topic := topicName, frequency := freq,
    approach := approachName, fallback := false }

/-- The retry loop of _generate_multiple_articles: the first successful
attempt among attempts 0, 1, 2 for the approach. -/
def firstAttempt (gen : ArticleGen) (approachName : String) :
    Option (String × String) :=
  match gen approachName 0 with
  | some tc => some tc
  | none =>
    match gen approachName 1 with
    | some tc => some tc
    | none => gen approachName 2

/-- One approach of the _generate_multiple_articles loop: the first
successful attempt, or else the hard-coded fallback article. -/
def articleForApproach (gen : ArticleGen) (language topicName : String) (freq : Nat)
    (approachName : String) : Article :=
  match firstAttempt gen approachName with
  | some tc => articleOf topicName freq approachName tc
  | none => _create_fallback_article language topicName freq approachName

/-- content_generator._generate_multiple_articles for a topic dict holding
the given topic name and frequency. -/
def _generate_multiple_articles (gen : ArticleGen) (language topicName : String)
    (freq : Nat) : List Article :=
  approachNames.map (articleForApproach gen language topicName freq)

theorem articleForApproach_approach (gen : ArticleGen) (language topicName : String)
    (freq : Nat) (name : String) :
    (articleForApproach gen language topicName freq name).approach = name := by
  unfold articleForApproach
  split
  · rfl
  · rfl

/-- C7: _generate_multiple_articles returns exactly 3 articles, one per
approach in the order practical, theoretical, motivational; each approach is
retried up to 3 times, the first successful attempt is used, and when all
three attempts fail the hard-coded fallback template article for that
approach is used instead. -/
theorem generate_multiple_articles_three (gen : ArticleGen) (language topicName : String)
    (freq : Nat) :
    (_generate_multiple_articles gen language topicName freq).length = 3 ∧
    (_generate_multiple_articles gen language topicName freq).map Article.approach
      = approachNames ∧
    (∀ name ∈ approachNames,
      articleForApproach gen language topicName freq name ∈
        _generate_multiple_articles gen language topicName freq) ∧
    (∀ name ∈ approachNames,
      gen name 0 = none → gen name 1 = none → gen name 2 = none →
      articleForApproach gen language topicName freq name =
        _create_fallback_article language topicName freq name) ∧
    (∀ name ∈ approachNames, ∀ tc : String × String,
      firstAttempt gen name = some tc →
      articleForApproach gen language topicName freq name =
        articleOf topicName freq name tc) := by
  refine ⟨?_, ?_, ?_, ?_, ?_⟩
  · simp [_generate_multiple_articles, approachNames]
  · show List.map Article.approach
      (List.map (articleForApproach gen language topicName freq) approachNames)
        = approachNames
    simp only [approachNames, List.map_cons, List.map_nil,
      articleForApproach_approach]
  · intro name hname
    exact List.mem_map_of_mem _ hname
  · intro name _ h0 h1 h2
    unfold articleForApproach firstAttempt
    rw [h0, h1, h2]
  · intro name _ tc h
    unfold articleForApproach
    rw [h]

/-- Witness for C7 with an always-failing generator: the practical slot gets
the fallback article. -/
theorem generate_multiple_articles_three_witness :
    ("practical" ∈ approachNames) ∧
    ((fun _ _ => none : ArticleGen) "practical" 0 = none) ∧
    articleForApproach (fun _ _ => none) "ru" "стресс" 3 "practical" =
      _create_fallback_article "ru" "стресс" 3 "practical" :=
  ⟨by decide, rfl,
    (generate_multiple_articles_three (fun _ _ => none) "ru" "стресс" 3).2.2.2.1
      "practical" (by decide) rfl rfl rfl⟩

theorem find_filter_ne {α : Type} (k k2 : String) (h : k2 ≠ k) (c : Cache α) :
    (c.filter (fun e => !(e.1 == k))).find? (fun e => e.1 == k2) =
      c.find? (fun e => e.1 == k2) := by
  induction c with
  | nil => rfl
  | cons e rest ih =>
    by_cases he : e.1 = k
    · have h2 : (e.1 == k2) = false := by
        simp only [beq_eq_false_iff_ne, ne_eq]
        intro hh
        exact h (hh ▸ he ▸ rfl)
      have h3 : (k == k2) = false := by
        simp only [beq_eq_false_iff_ne, ne_eq]
        intro hh
        exact h hh.symm
      simp [List.filter_cons, he, List.find?_cons, h2, h3, ih]
    · by_cases hk2 : e.1 = k2
      · simp [List.filter_cons, he, List.find?_cons, hk2, h]
      · simp [List.filter_cons, he, List.find?_cons, hk2, ih]

theorem Cache.get_setex_same {α : Type} (c : Cache α) (k : String) (ttl : Nat) (v : α) :
    (c.setex k ttl v).get k = some v := by
  simp [Cache.setex, Cache.get, List.find?_cons]

theorem Cache.get_setex_other {α : Type} (c : Cache α) (k k2 : String) (ttl : Nat)
    (v : α) (h : k2 ≠ k) : (c.setex k ttl v).get k2 = c.get k2 := by
  have h2 : (k == k2) = false := by
    simp only [beq_eq_false_iff_ne, ne_eq]
    intro hh
    exact h hh.symm
  simp [Cache.setex, Cache.get, List.find?_cons, h2, find_filter_ne k k2 h c]

/-! ## Quote generation (content_generator.py, _generate_quote) and
content generation for a topic (tasks.py, generate_content_for_topic) -/

/-- A quote dict; generated models the is_generated key, which the Python
dict carries (True) only on quotes parsed from LLM output. -/
structure Quote where
  text : String
  author : String
  topic : String
  date : String
  generated : Bool
deriving DecidableEq, Repr

/-- A row of the quotes table as written by db.save_quote. -/
structure SavedQuote where
  text : String
  author : String
  topic : String
  language : String
  generated : Bool
deriving DecidableEq, Repr

/-- A row of the generated_content table as written by
db.save_generated_content. -/
structure SavedContent where
  ctype : String
  title : String
  content : String
  sourceTopics : List String
  approach : String
deriving DecidableEq, Repr

/-- Python str.lower() of a whole string. -/
def pyLowerStr (s : String) : String := String.mk (s.data.map pyLowerChar)

/-- Outcome of the quote LLM interaction inside _generate_quote: parsed
carries the QUOTE and AUTHOR lines recovered by the parse loop (the author
defaults to the hard-coded fallback author when no AUTHOR line appears),
emptyParse a completion with no QUOTE line, failed a completion call that
raised. -/
inductive QuoteLLM where
  | parsed (text author : String)
  | emptyParse
  | failed
deriving DecidableEq, Repr

/-- The fallback quote returned when the parse produced no quote text. -/
def fallbackQuoteFor (language now : String) : Quote :=
  if language == "en" then
    ⟨"Every day is a new opportunity to become better", "Unknown", "motivation",
      now, false⟩
  else
    ⟨"Каждый день - это новая возможность стать лучше", "Неизвестный", "мотивация",
      now, false⟩

/-- The hard-coded quote returned from the except branch of
_generate_quote. -/
def exceptionQuoteFor (language now : String) : Quote :=
  if language == "en" then
    ⟨"Be the change you wish to see in the world", "Mahatma Gandhi", "motivation",
      now, false⟩
  else
    ⟨"Будь изменением, которое ты хочешь видеть в мире", "Махатма Ганди", "мотивация",
      now, false⟩

/-- The first popular topic, or the hard-coded default topic of
_generate_quote. -/
def popularOr (language : String) (popular : List String) : String :=
  match popular with
  | t :: _ => t
  | [] => if language == "ru" then "мотивация" else "motivation"

/-- The topic _generate_quote settles on: its argument when truthy, else the
first popular topic, else a hard-coded default. -/
def quoteTopicName (topic : Option String) (language : String)
    (popular : List String) : String :=
  match topic with
  | some t => if t == "" then popularOr language popular else t
  | none => popularOr language popular

/-- content_generator._generate_quote: on a parsed non-empty quote text,
save the quote to the quotes table and return the generated dict; otherwise
return one of the hard-coded quotes without touching the database. -/
def _generate_quote (topic : Option String) (language : String) (popular : List String)
    (llm : QuoteLLM) (now : String) (dbQuotes : List SavedQuote) :
    Quote × List SavedQuote :=
  match llm with
  | .parsed text author =>
      if text == "" then (fallbackQuoteFor language now, dbQuotes)
      else
        (⟨text, author, quoteTopicName topic language popular, now, true⟩,
          dbQuotes ++ [⟨text, author, quoteTopicName topic language popular, language, true⟩])
  | .emptyParse => (fallbackQuoteFor language now, dbQuotes)
  | .failed => (exceptionQuoteFor language now, dbQuotes)

/-- The state touched by generate_content_for_topic: the article and quote
entries of Redis and the generated_content and quotes tables. -/
structure GenState where
  articleCache : Cache Article
  quoteCache : Cache Quote
  dbContents : List SavedContent
  dbQuotes : List SavedQuote
deriving DecidableEq, Repr

/-- The article cache key of generate_content_for_topic:
article:topic:language:approach:YYYYMMDD. -/
def articleKey (topic language approach day : String) : String :=
  "article:" ++ topic ++ ":" ++ language ++ ":" ++ approach ++ ":" ++ day

/-- The quote cache key of generate_content_for_topic:
quote:topic:language:YYYYMMDD. -/
def quoteKey (topic language day : String) : String :=
  "quote:" ++ topic ++ ":" ++ language ++ ":" ++ day

/-- One iteration of the article loop of generate_content_for_topic: cache
the article for 86400 seconds, then attempt the database save, whose
exception (dbSaveOk false) is caught and only logged. -/
def storeArticle (topic language day : String) (dbSaveOk : Bool)
    (st : GenState) (a : Article) : GenState :=
  let st1 := { st with
    articleCache := st.articleCache.setex (articleKey topic language a.approach day) 86400 a }
  if dbSaveOk then
    { st1 with dbContents := st1.dbContents ++
        [⟨"article", a.title, a.content, [pyLowerStr topic], a.approach⟩] }
  else st1

/-- The dict returned by generate_content_for_topic. -/
inductive ContentResult where
  | articles (items : List Article)
  | quote (q : Quote)
  | unknownType (ctype : String)
deriving DecidableEq, Repr

/-- tasks.generate_content_for_topic: for the article type, generate 3
articles and cache and save each; for the quote type, generate one quote
(saved to the database inside _generate_quote only on a parsed result) and
cache it for 86400 seconds; any other content type is reported as an
error. -/
def generate_content_for_topic (topic ctype language : String) (gen : ArticleGen)
    (qllm : QuoteLLM) (popular : List String) (day now : String) (dbSaveOk : Bool)
    (st : GenState) : GenState × ContentResult :=
  if ctype == "article" then
    let arts := _generate_multiple_articles gen language topic 3
    if arts.isEmpty then (st, .unknownType ctype)
    else (arts.foldl (storeArticle topic language day dbSaveOk) st, .articles arts)
  else if ctype == "quote" then
    let qd := _generate_quote (some topic) language popular qllm now st.dbQuotes
    ({ st with
        quoteCache := st.quoteCache.setex (quoteKey topic language day) 86400 qd.1,
        dbQuotes := qd.2 },
      .quote qd.1)
  else (st, .unknownType ctype)

/-- The empty initial generation state. -/
def emptyGenState : GenState := ⟨[], [], [], []⟩

theorem articleKey_length (topic language approach day : String) :
    (articleKey topic language approach day).length =
      topic.length + language.length + approach.length + day.length + 11 := by
  have h8 : ("article:" : String).length = 8 := rfl
  have h1 : (":" : String).length = 1 := rfl
  unfold articleKey
  simp only [String.length_append, h8, h1]
  omega

theorem articleKey_ne (topic language day : String) (a b : String)
    (h : a.length ≠ b.length) :
    articleKey topic language a day ≠ articleKey topic language b day := by
  intro he
  apply h
  have hl := congrArg String.length he
  rw [articleKey_length, articleKey_length] at hl
  omega

/-- C3 counterexample: in the quote branch with the completion call raising,
the hard-coded fallback quote is produced and cached with a finite TTL, but
nothing is persisted to the SQL database. -/
theorem quote_fallback_not_persisted :
    ((generate_content_for_topic "стресс" "quote" "ru" (fun _ _ => none)
        QuoteLLM.failed [] "20240101" "2024-01-01" true emptyGenState).1).quoteCache.get
        (quoteKey "стресс" "ru" "20240101") =
      some ⟨"Будь изменением, которое ты хочешь видеть в мире", "Махатма Ганди",
        "мотивация", "2024-01-01", false⟩ ∧
    ((generate_content_for_topic "стресс" "quote" "ru" (fun _ _ => none)
        QuoteLLM.failed [] "20240101" "2024-01-01" true emptyGenState).1).dbQuotes = [] ∧
    ((generate_content_for_topic "стресс" "quote" "ru" (fun _ _ => none)
        QuoteLLM.failed [] "20240101" "2024-01-01" true emptyGenState).1).dbContents = [] := by
  refine ⟨?_, ?_, ?_⟩ <;> decide

/-- C3 amended: every article produced by generate_content_for_topic is
cached for 86400 seconds and, when the database write does not raise,
persisted to the generated_content table; a produced quote is always cached
for 86400 seconds but persisted to the quotes table only when it was parsed
from LLM output - the hard-coded fallback quotes are cached without any
database write. -/
theorem generate_content_caches_and_persists
    (topic language day now : String) (gen : ArticleGen) (qllm : QuoteLLM)
    (popular : List String) (st : GenState) (dbSaveOk : Bool) :
    (∀ name ∈ approachNames,
      ((generate_content_for_topic topic "article" language gen qllm popular day now
          dbSaveOk st).1).articleCache.get (articleKey topic language name day) =
        some (articleForApproach gen language topic 3 name) ∧
      (dbSaveOk = true →
        (⟨"article", (articleForApproach gen language topic 3 name).title,
            (articleForApproach gen language topic 3 name).content,
            [pyLowerStr topic], name⟩ : SavedContent) ∈
          ((generate_content_for_topic topic "article" language gen qllm popular day now
            dbSaveOk st).1).dbContents)) ∧
    (((generate_content_for_topic topic "quote" language gen qllm popular day now
        dbSaveOk st).1).quoteCache.get (quoteKey topic language day) =
      some (_generate_quote (some topic) language popular qllm now st.dbQuotes).1) ∧
    (∀ text author, qllm = QuoteLLM.parsed text author → (text == "") = false →
      (⟨text, author, quoteTopicName (some topic) language popular, language, true⟩ : SavedQuote) ∈
        ((generate_content_for_topic topic "quote" language gen qllm popular day now
          dbSaveOk st).1).dbQuotes) ∧
    (qllm = QuoteLLM.emptyParse ∨ qllm = QuoteLLM.failed →
      ((generate_content_for_topic topic "quote" language gen qllm popular day now
        dbSaveOk st).1).dbQuotes = st.dbQuotes) := by
  have hP := articleForApproach_approach gen language topic 3 "practical"
  have hT := articleForApproach_approach gen language topic 3 "theoretical"
  have hM := articleForApproach_approach gen language topic 3 "motivational"
  have hcache : ((generate_content_for_topic topic "article" language gen qllm popular
      day now dbSaveOk st).1).articleCache =
      ((st.articleCache.setex
          (articleKey topic language "practical" day) 86400
          (articleForApproach gen language topic 3 "practical")).setex
          (articleKey topic language "theoretical" day) 86400
          (articleForApproach gen language topic 3 "theoretical")).setex
          (articleKey topic language "motivational" day) 86400
          (articleForApproach gen language topic 3 "motivational") := by
    cases dbSaveOk <;>
      simp [generate_content_for_topic, _generate_multiple_articles, approachNames,
        List.foldl, storeArticle, hP, hT, hM]
  have hdb : ((generate_content_for_topic topic "article" language gen qllm popular
      day now true st).1).dbContents =
      ((st.dbContents ++
        [⟨"article", (articleForApproach gen language topic 3 "practical").title,
          (articleForApproach gen language topic 3 "practical").content,
          [pyLowerStr topic], "practical"⟩]) ++
        [⟨"article", (articleForApproach gen language topic 3 "theoretical").title,
          (articleForApproach gen language topic 3 "theoretical").content,
          [pyLowerStr topic], "theoretical"⟩]) ++
        [⟨"article", (articleForApproach gen language topic 3 "motivational").title,
          (articleForApproach gen language topic 3 "motivational").content,
          [pyLowerStr topic], "motivational"⟩] := by
    simp [generate_content_for_topic, _generate_multiple_articles, approachNames,
      List.foldl, storeArticle, hP, hT, hM]
  have hqres : (generate_content_for_topic topic "quote" language gen qllm popular
      day now dbSaveOk st).1 =
      { st with
        quoteCache := st.quoteCache.setex (quoteKey topic language day) 86400
          (_generate_quote (some topic) language popular qllm now st.dbQuotes).1,
        dbQuotes := (_generate_quote (some topic) language popular qllm now st.dbQuotes).2 } := by
    simp [generate_content_for_topic]
  refine ⟨?_, ?_, ?_, ?_⟩
  · intro name hname
    have hname3 : name = "practical" ∨ name = "theoretical" ∨ name = "motivational" := by
      simpa [approachNames] using hname
    constructor
    · rw [hcache]
      rcases hname3 with rfl | rfl | rfl
      · rw [Cache.get_setex_other _ _ _ _ _
            (articleKey_ne topic language day "practical" "motivational" (by decide)),
          Cache.get_setex_other _ _ _ _ _
            (articleKey_ne topic language day "practical" "theoretical" (by decide)),
          Cache.get_setex_same]
      · rw [Cache.get_setex_other _ _ _ _ _
            (articleKey_ne topic language day "theoretical" "motivational" (by decide)),
          Cache.get_setex_same]
      · exact Cache.get_setex_same _ _ _ _
    · intro hdbok
      subst hdbok
      rw [hdb]
      rcases hname3 with rfl | rfl | rfl <;> simp
  · rw [hqres]
    exact Cache.get_setex_same _ _ _ _
  · intro text author hq ht
    rw [hqres]
    subst hq
    simp only [_generate_quote, ht]
    simp
  · intro hq
    rw [hqres]
    rcases hq with rfl | rfl <;> rfl

/-- Witness for C3 amended at an always-failing article generator. -/
theorem generate_content_caches_and_persists_witness :
    ("practical" ∈ approachNames) ∧
    ((generate_content_for_topic "стресс" "article" "ru" (fun _ _ => none)
        QuoteLLM.emptyParse [] "20240101" "t" true emptyGenState).1).articleCache.get
        (articleKey "стресс" "ru" "practical" "20240101") =
      some (articleForApproach (fun _ _ => none) "ru" "стресс" 3 "practical") :=
  ⟨by decide,
    ((generate_content_caches_and_persists "стресс" "ru" "20240101" "t"
        (fun _ _ => none) QuoteLLM.emptyParse [] emptyGenState true).1 "practical"
        (by decide)).1⟩

/-! ## Topic-extraction orchestration (tasks.py, extract_topic_from_message) -/

/-- A Celery task dispatched with .delay by extract_topic_from_message. -/
inductive TaskKind where
  | initialRandomContent
  | updateRecommendations
  | articleGeneration
  | quoteGeneration
deriving DecidableEq, Repr

/-- The observable outcome of one invocation of extract_topic_from_message.
err models the except branch returning a dict with only an error key;
llmCalls counts the chat-completion requests made; dispatched lists the
Celery tasks dispatched, in order. -/
structure ExtractOutcome where
  err : Bool
  topic : Option (List Char)
  isFirstMessage : Bool
  autoGenerationStarted : Option Bool
  topicChanged : Option Bool
  llmCalls : Nat
  dispatched : List TaskKind
  cacheAfter : Cache String
  userTopicsAfter : List (String × String)
deriving Repr

/-- tasks.extract_topic_from_message.  serviceOk models the ai_service
global being non-None; aiResp is the content of the topic-extraction
completion; checkResult is the boolean returned by
_check_if_topics_are_similar (true meaning different context), whose
computation always costs one further completion request; cache and
userTopics are the Redis topic namespace and the user_topics table.
Python truthiness: is_first_message tests previous_topic is None, but both
the topic_changed assignment (previous_topic != topic if previous_topic
else True) and the similarity-check guard (if previous_topic and topic !=
previous_topic) test truthiness, so a stored empty-string previous topic
yields topic_changed True with no similarity call and dispatches the
generation tasks. -/
def extract_topic_from_message (_message user language : String) (serviceOk : Bool)
    (aiResp : List Char) (checkResult : Bool) (cache : Cache String)
    (userTopics : List (String × String)) : ExtractOutcome :=
  if !serviceOk then
    { err := true, topic := none, isFirstMessage := false,
      autoGenerationStarted := none, topicChanged := none, llmCalls := 0,
      dispatched := [], cacheAfter := cache, userTopicsAfter := userTopics }
  else
    let topic := extract_topic language aiResp
    let topicStr := String.mk topic
    let cache1 := cache.setex ("user_topic:" ++ user) 300 topicStr
    let prevTopic := userTopics.lookup user
    let userTopics1 := (user, topicStr) :: userTopics.filter (fun e => !(e.1 == user))
    match prevTopic with
    | none =>
        { err := false, topic := some topic, isFirstMessage := true,
          autoGenerationStarted := some true, topicChanged := none, llmCalls := 1,
          dispatched := [.initialRandomContent, .updateRecommendations],
          cacheAfter := cache1, userTopicsAfter := userTopics1 }
    | some prev =>
        if prev == "" then
          { err := false, topic := some topic, isFirstMessage := false,
            autoGenerationStarted := some true, topicChanged := some true,
            llmCalls := 1,
            dispatched := [.articleGeneration, .quoteGeneration, .updateRecommendations],
            cacheAfter := cache1, userTopicsAfter := userTopics1 }
        else if topicStr == prev then
          { err := false, topic := some topic, isFirstMessage := false,
            autoGenerationStarted := some false, topicChanged := some false,
            llmCalls := 1, dispatched := [],
            cacheAfter := cache1, userTopicsAfter := userTopics1 }
        else if checkResult then
          { err := false, topic := some topic, isFirstMessage := false,
            autoGenerationStarted := some true, topicChanged := some true,
            llmCalls := 2,
            dispatched := [.articleGeneration, .quoteGeneration, .updateRecommendations],
            cacheAfter := cache1, userTopicsAfter := userTopics1 }
        else
          { err := false, topic := some topic, isFirstMessage := false,
            autoGenerationStarted := some false, topicChanged := some false,
            llmCalls := 2, dispatched := [],
            cacheAfter := cache1, userTopicsAfter := userTopics1 }

/-- C1 counterexample: with previous topic "стресс" and extracted topic
"мотивация", one invocation of extract_topic_from_message performs two
chat-completion requests (topic extraction plus the similarity check), not
one. -/
theorem extract_topic_two_llm_calls :
    (extract_topic_from_message "m" "u" "ru" true ("мотивация".data) true []
        [("u", "стресс")]).llmCalls = 2 ∧
    (extract_topic_from_message "m" "u" "ru" true ("мотивация".data) true []
        [("u", "стресс")]).llmCalls ≠ 1 := by
  refine ⟨?_, ?_⟩ <;> decide

/-- C1 amended: with the AI service available, one invocation of
extract_topic_from_message makes exactly one chat-completion request when
the user has no previous topic, the stored previous topic is falsy (the
empty string, which skips the similarity check), or the extracted topic
equals the previous one, and exactly two (the second being the similarity
check) when a truthy previous topic exists and differs from the extracted
topic. -/
theorem extract_topic_llm_call_count (message user language : String)
    (aiResp : List Char) (checkResult : Bool) (cache : Cache String)
    (userTopics : List (String × String)) :
    (extract_topic_from_message message user language true aiResp checkResult cache
        userTopics).llmCalls =
      match userTopics.lookup user with
      | none => 1
      | some prev =>
        if prev == "" then 1
        else if String.mk (extract_topic language aiResp) == prev then 1 else 2 := by
  unfold extract_topic_from_message
  cases h : userTopics.lookup user with
  | none => simp [h]
  | some prev =>
    by_cases hp : (prev == "") = true
    · simp [h, hp]
    · rw [Bool.not_eq_true] at hp
      by_cases hb : (String.mk (extract_topic language aiResp) == prev) = true
      · simp [h, hp, hb]
      · rw [Bool.not_eq_true] at hb
        cases checkResult <;> simp [h, hp, hb]

/-- C4: content generation is conditional: for an existing user with a
truthy previous topic whose new topic is judged the same context (equal to
the previous topic, or different but judged similar by the check),
extract_topic_from_message dispatches no tasks and returns
auto_generation_started = false and topic_changed = false; and tasks are
dispatched only on the first message or on a topic change.  The truthiness
condition reflects the code: the same-context judgement only ever happens
for a truthy previous topic (a stored empty string is falsy, so the code
sets topic_changed True without consulting the similarity check). -/
theorem extract_topic_conditional_generation (message user language : String)
    (aiResp : List Char) (checkResult : Bool) (cache : Cache String)
    (userTopics : List (String × String)) :
    (∀ prev : String, userTopics.lookup user = some prev → prev ≠ "" →
      (String.mk (extract_topic language aiResp) = prev ∨
        (String.mk (extract_topic language aiResp) ≠ prev ∧ checkResult = false)) →
      (extract_topic_from_message message user language true aiResp checkResult cache
          userTopics).dispatched = [] ∧
      (extract_topic_from_message message user language true aiResp checkResult cache
          userTopics).autoGenerationStarted = some false ∧
      (extract_topic_from_message message user language true aiResp checkResult cache
          userTopics).topicChanged = some false) ∧
    ((extract_topic_from_message message user language true aiResp checkResult cache
        userTopics).dispatched ≠ [] →
      userTopics.lookup user = none ∨
      (extract_topic_from_message message user language true aiResp checkResult cache
          userTopics).topicChanged = some true) := by
  constructor
  · intro prev hp hprev hsame
    unfold extract_topic_from_message
    have hp2 : (prev == "") = false := by
      simp only [beq_eq_false_iff_ne, ne_eq]
      exact hprev
    rcases hsame with heq | ⟨hne, hck⟩
    · have hb : (String.mk (extract_topic language aiResp) == prev) = true := by
        simp [heq]
      simp [hp, hp2, hb]
    · have hb : (String.mk (extract_topic language aiResp) == prev) = false := by
        simp [hne]
      simp [hp, hp2, hb, hck]
  · intro hdisp
    cases h : userTopics.lookup user with
    | none => exact Or.inl rfl
    | some prev =>
      right
      unfold extract_topic_from_message at hdisp ⊢
      by_cases hpe : (prev == "") = true
      · simp [h, hpe]
      · rw [Bool.not_eq_true] at hpe
        by_cases hb : (String.mk (extract_topic language aiResp) == prev) = true
        · simp [h, hpe, hb] at hdisp
        · rw [Bool.not_eq_true] at hb
          cases hck : checkResult
          · simp [h, hpe, hb, hck] at hdisp
          · simp [h, hpe, hb, hck]

/-- Witness for C4 with an unchanged topic for an existing user. -/
theorem extract_topic_conditional_generation_witness :
    ([("u", "стресс")].lookup "u" = some "стресс") ∧
    ("стресс" : String) ≠ "" ∧
    (String.mk (extract_topic "ru" ("стресс".data)) = "стресс" ∨
      (String.mk (extract_topic "ru" ("стресс".data)) ≠ "стресс" ∧ false = false)) ∧
    (extract_topic_from_message "m" "u" "ru" true ("стресс".data) false []
        [("u", "стресс")]).dispatched = [] :=
  ⟨by decide, by decide, Or.inl (by decide),
    ((extract_topic_conditional_generation "m" "u" "ru" ("стресс".data) false []
        [("u", "стресс")]).1 "стресс" (by decide) (by decide) (Or.inl (by decide))).1⟩

/-! ## AIService.get_response (ai_service.py) -/

/-- models.ChatMode. -/
inductive ChatMode where
  | support
  | analysis
  | practice
deriving DecidableEq, Repr

/-- The value of a ChatMode enum member. -/
def ChatMode.val : ChatMode → String
  | .support => "support"
  | .analysis => "analysis"
  | .practice => "practice"

/-- The outcomes of the effectful steps inside the try block of
AIService.get_response, in order, each either a value or the message of the
exception it raised: the user-message database write, the topic-keyword
extraction write, the chat completion call, the assistant-message database
write, the two Celery dispatches, and the cached-topic read. -/
structure ResponseEnv where
  saveUserMessage : Except String Unit
  extractTopics : Except String Unit
  completion : Except String String
  saveAssistantMessage : Except String Unit
  dispatchTopicTask : Except String String
  dispatchRecsTask : Except String String
  cachedTopic : Except String String

/-- The data the try block of get_response produces when every step
succeeds. -/
structure HappyResponse where
  aiResponse : String
  cachedTopic : String
  topicTaskId : String
  recsTaskId : String
deriving DecidableEq, Repr

/-- The try block of get_response: run the steps in order, stopping at the
first raised exception. -/
def happyPath (env : ResponseEnv) : Except String HappyResponse := do
  let _ ← env.saveUserMessage
  let _ ← env.extractTopics
  let resp ← env.completion
  let _ ← env.saveAssistantMessage
  let t1 ← env.dispatchTopicTask
  let t2 ← env.dispatchRecsTask
  let ct ← env.cachedTopic
  pure ⟨resp, ct, t1, t2⟩

/-- The dict returned by AIService.get_response. -/
structure ResponseDict where
  response : String
  mode : String
  topic : Option String
  topicTaskId : Option String
  recsTaskId : Option String
  error : Option String
deriving DecidableEq, Repr

/-- The hard-coded apology message of the except branch of get_response. -/
def apologyMessage (e : String) : String :=
  "Sorry, I\x27m having trouble responding right now. Please try again later. (Error: "
    ++ e ++ ")"

/-- AIService.get_response: the try block, with the except branch building
the apology dict from the exception text.  The function is total over every
step outcome: no exception propagates. -/
def get_response (mode : ChatMode) (env : ResponseEnv) : ResponseDict :=
  match happyPath env with
  | .ok h => ⟨h.aiResponse, mode.val, some h.cachedTopic, some h.topicTaskId,
      some h.recsTaskId, none⟩
  | .error e => ⟨apologyMessage e, mode.val, none, none, none, some e⟩

/-- C8: get_response never propagates an exception: it is total over every
step outcome, its mode field always equals the value of the requested mode, and
whenever any step of the try block raises with message e the result is the
apology dict: response the hard-coded apology containing e, topic None, and
an error key holding e. -/
theorem get_response_error_dict (mode : ChatMode) (env : ResponseEnv) :
    (get_response mode env).mode = mode.val ∧
    (∀ e : String, happyPath env = .error e →
      get_response mode env =
        ⟨apologyMessage e, mode.val, none, none, none, some e⟩) := by
  constructor
  · unfold get_response
    cases happyPath env <;> rfl
  · intro e he
    unfold get_response
    rw [he]

/-- A step environment whose completion call raises. -/
def envBoom : ResponseEnv :=
  ⟨.ok (), .ok (), .error "boom", .ok (), .ok "t1", .ok "t2", .ok "topic"⟩

/-- Witness for C8 with a raising completion call. -/
theorem get_response_error_dict_witness :
    happyPath envBoom = .error "boom" ∧
    get_response ChatMode.support envBoom =
      ⟨apologyMessage "boom", "support", none, none, none, some "boom"⟩ :=
  ⟨rfl, (get_response_error_dict ChatMode.support envBoom).2 "boom" rfl⟩

/-! ## The chat endpoint (main.py) -/

/-- A FastAPI ChatRequest. -/
structure ChatRequest where
  message : String
  mode : ChatMode
  userId : String
  language : String
deriving Repr

/-- The endpoint outcome: an HTTPException with status and detail, or the
response payload. -/
inductive ChatOutcome where
  | httpError (status : Nat) (detail : String)
  | ok (resp : ResponseDict)
deriving DecidableEq, Repr

/-- Python request.message.strip() being falsy: the message is empty or
whitespace only. -/
def isBlankMessage (m : String) : Bool := (stripWs m.data).isEmpty

/-- main.chat: the 500 guard for a missing AI service comes first, then the
400 guard for a blank message, then the call to AIService.get_response.
The second component records whether get_response was invoked.  An
HTTPException raised in the try block is re-raised unchanged by the except
HTTPException handler; only other exceptions become the generic 500, and in
the model the body after validation raises none since get_response is
total. -/
def chat (serviceOk : Bool) (req : ChatRequest) (env : ResponseEnv) :
    ChatOutcome × Bool :=
  if !serviceOk then (.httpError 500 "AI service not available", false)
  else if isBlankMessage req.message then
    (.httpError 400 "Message cannot be empty", false)
  else (.ok (get_response req.mode env), true)

/-- A step environment with every step succeeding. -/
def envAllOk : ResponseEnv :=
  ⟨.ok (), .ok (), .ok "resp", .ok (), .ok "t1", .ok "t2", .ok "topic"⟩

/-- C10 counterexample: a whitespace-only message is not always answered
with HTTP 400: when the AI service failed to initialize, the endpoint
answers 500 "AI service not available" (that guard runs before the
blank-message check). -/
theorem blank_message_not_always_400 :
    (chat false ⟨" ", ChatMode.support, "u", "ru"⟩ envAllOk).1 =
      ChatOutcome.httpError 500 "AI service not available" ∧
    (chat false ⟨" ", ChatMode.support, "u", "ru"⟩ envAllOk).1 ≠
      ChatOutcome.httpError 400 "Message cannot be empty" := by
  refine ⟨rfl, ?_⟩
  decide

/-- C10 amended: provided the AI service initialized successfully, every
blank (empty or whitespace-only) message is rejected with HTTP 400
"Message cannot be empty", the AI service is never invoked (so nothing is
saved, no completion call is made and no task dispatched), and the 400 is
re-raised as is, not converted into the generic 500. -/
theorem blank_message_400 (req : ChatRequest) (env : ResponseEnv)
    (hblank : isBlankMessage req.message = true) :
    chat true req env = (.httpError 400 "Message cannot be empty", false) := by
  simp [chat, hblank]

/-- Witness for C10 amended at a whitespace-only message. -/
theorem blank_message_400_witness :
    isBlankMessage " " = true ∧
    chat true ⟨" ", ChatMode.support, "u", "ru"⟩ envAllOk =
      (ChatOutcome.httpError 400 "Message cannot be empty", false) :=
  ⟨by decide, blank_message_400 ⟨" ", ChatMode.support, "u", "ru"⟩ envAllOk (by decide)⟩

end Pocket
